import Mathlib

/-! # Verification of the mcp-sqlite-ts command-dispatch and insight-ledger subsystem

Shallow embedding of `src/server.ts`. JavaScript strings are modelled as
`List Char`; the stateful SQLite store is modelled by explicit state passing
through an abstract executor `Exec σ : σ → Str → σ × ExecResult`.
Tool handlers (`read_query`, `write_query`, `create_table`, `list_tables`,
`describe_table`, `append_insight`) are translated directly from the source;
each returns the next store state, the list of statements it passed to the
executor (its call trace), and an `Outcome` that is either the returned
`{content, isError}` envelope or a fault that propagated out of the handler.
-/

namespace McpSqlite

/-- JavaScript strings modelled as lists of characters. -/
abbrev Str := List Char

/-- Coerce a Lean string literal to the character-list model. -/
def str (s : String) : Str := s.data

/-- The whitespace characters removed by JavaScript `String.prototype.trim`
(ASCII subset: space, tab, line feed, carriage return, vertical tab, form feed). -/
def jsWhitespace (c : Char) : Bool :=
  c = ' ' || c = '\t' || c = '\n' || c = '\r' || c = Char.ofNat 11 || c = Char.ofNat 12

/-- `String.prototype.trim`: strip whitespace from both ends. -/
def jsTrim (s : Str) : Str :=
  ((s.dropWhile jsWhitespace).reverse.dropWhile jsWhitespace).reverse

/-- `String.prototype.toUpperCase` (ASCII letters; no statement in this
system depends on non-ASCII case mapping). -/
def jsToUpperCase (s : Str) : Str :=
  s.map Char.toUpper

/-- `s.startsWith(pat)`: `pat` matches the front of `s`. -/
def strStartsWith : Str → Str → Bool
  | _, [] => true
  | [], _ :: _ => false
  | c :: cs, d :: ds => c = d && strStartsWith cs ds

/-- `Array.prototype.join(sep)`. -/
def joinSep (sep : Str) : List Str → Str
  | [] => []
  | [x] => x
  | x :: y :: xs => x ++ sep ++ joinSep sep (y :: xs)

/-- Decimal rendering of a number, as JavaScript template interpolation does. -/
def natToStr (n : Nat) : Str := (toString n).data

/-- Split a character list at every occurrence of `c` (the separators are
dropped; `n` separators yield `n+1` pieces). -/
def splitOnChar (c : Char) : Str → List Str
  | [] => [[]]
  | d :: ds =>
    if d = c then [] :: splitOnChar c ds
    else
      match splitOnChar c ds with
      | [] => [[d]]
      | l :: ls => (d :: l) :: ls

/-- The lines of a text, split at newline characters. -/
def splitLines (s : Str) : List Str := splitOnChar '\n' s

/-- A result row: a mapping from column name to (textual) value.  The rows
produced by the store model in this development carry text values only. -/
abbrev Row := List (Str × Str)

/-- Outcome of one executor invocation: a result set, or the store's fault
message. -/
inductive ExecResult where
  | ok (rows : List Row)
  | fail (msg : Str)
deriving DecidableEq

/-- Whether an executor invocation succeeded. -/
def ExecResult.isOk : ExecResult → Bool
  | .ok _ => true
  | .fail _ => false

/-- The fault message of a failed invocation (empty for a success). -/
def ExecResult.msg : ExecResult → Str
  | .ok _ => []
  | .fail m => m

/-- An abstract stateful executor: `db._executeQuery` seen from the
dispatcher, over store states of type `σ`. -/
abbrev Exec (σ : Type) := σ → Str → σ × ExecResult

/-- What a tool handler produces: either the `{content, isError}` envelope it
returns, or a fault that escaped the handler (no surrounding try/catch). -/
inductive Outcome where
  | ret (text : Str) (isError : Bool)
  | thrown (msg : Str)
deriving DecidableEq

/-- Whether an outcome is a structured error envelope (`isError = true`). -/
def Outcome.isErrorEnvelope : Outcome → Bool
  | .ret _ true => true
  | _ => false

/-- `JSON.stringify` of a string value (the values serialized in this
development contain no characters needing escapes). -/
def jsonStr (s : Str) : Str := '\"' :: s ++ ['\"']

/-- `JSON.stringify` of one row object. -/
def jsonRow (r : Row) : Str :=
  Char.ofNat 123 :: joinSep [','] (r.map fun p => jsonStr p.1 ++ ':' :: jsonStr p.2)
    ++ [Char.ofNat 125]

/-- `JSON.stringify` of an array of row objects. -/
def jsonOfRows (rows : List Row) : Str :=
  '[' :: joinSep [','] (rows.map jsonRow) ++ [']']

/-- The `read_query` tool handler (server.ts lines 207-228): reject unless the
trimmed-uppercased statement starts with `SELECT`; otherwise execute.  The
executor call is not wrapped in try/catch, so an execution fault escapes the
handler (`Outcome.thrown`). -/
def read_query (exec : Exec σ) (s : σ) (query : Str) : σ × List Str × Outcome :=
  if !strStartsWith (jsToUpperCase (jsTrim query)) (str "SELECT") then
    (s, [], Outcome.ret (str "Only SELECT queries are allowed for read_query") true)
  else
    match exec s query with
    | (s', ExecResult.ok rows) => (s', [query], Outcome.ret (jsonOfRows rows) false)
    | (s', ExecResult.fail m) => (s', [query], Outcome.thrown m)

/-- The `write_query` tool handler (server.ts lines 231-252): reject when the
trimmed-uppercased statement starts with `SELECT`; otherwise execute.  As in
`read_query`, an execution fault escapes the handler. -/
def write_query (exec : Exec σ) (s : σ) (query : Str) : σ × List Str × Outcome :=
  if strStartsWith (jsToUpperCase (jsTrim query)) (str "SELECT") then
    (s, [], Outcome.ret (str "SELECT queries are not allowed for write_query") true)
  else
    match exec s query with
    | (s', ExecResult.ok rows) => (s', [query], Outcome.ret (jsonOfRows rows) false)
    | (s', ExecResult.fail m) => (s', [query], Outcome.thrown m)

/-- The `create_table` tool handler (server.ts lines 255-286): reject unless
the trimmed-uppercased statement starts with `CREATE TABLE`.  The statement is
then executed once outside any try/catch — a fault there escapes the handler —
and, when that first execution succeeds, executed a second time inside the
try/catch whose outcome determines the returned envelope. -/
def create_table (exec : Exec σ) (s : σ) (query : Str) : σ × List Str × Outcome :=
  if !strStartsWith (jsToUpperCase (jsTrim query)) (str "CREATE TABLE") then
    (s, [], Outcome.ret (str "Only CREATE TABLE statements are allowed") true)
  else
    match exec s query with
    | (s', ExecResult.fail m) => (s', [query], Outcome.thrown m)
    | (s', ExecResult.ok _) =>
      match exec s' query with
      | (s'', ExecResult.ok _) =>
        (s'', [query, query],
          Outcome.ret (str "Table created successfully: " ++ query) false)
      | (s'', ExecResult.fail m) =>
        (s'', [query, query], Outcome.ret (str "Error creating table: " ++ m) true)

/-- The fixed catalog introspection statement used by `list_tables`
(server.ts line 296). -/
def listTablesQuery : Str := str "SELECT name FROM sqlite_master WHERE type='table'"

/-- The `list_tables` tool handler (server.ts lines 289-313): run the fixed
catalog query inside try/catch; a fault becomes an `isError = true` envelope. -/
def list_tables (exec : Exec σ) (s : σ) : σ × List Str × Outcome :=
  match exec s listTablesQuery with
  | (s', ExecResult.ok rows) =>
    (s', [listTablesQuery], Outcome.ret (jsonOfRows rows) false)
  | (s', ExecResult.fail m) =>
    (s', [listTablesQuery], Outcome.ret (str "Error listing tables: " ++ m) true)

/-- The introspection statement built by `describe_table` (server.ts line 323):
the table name is interpolated without quoting or validation. -/
def describeQuery (table_name : Str) : Str :=
  str "PRAGMA table_info(" ++ table_name ++ str ")"

/-- The `describe_table` tool handler (server.ts lines 316-340): run the
interpolated introspection statement inside try/catch; a fault becomes an
`isError = true` envelope. -/
def describe_table (exec : Exec σ) (s : σ) (table_name : Str) : σ × List Str × Outcome :=
  match exec s (describeQuery table_name) with
  | (s', ExecResult.ok rows) =>
    (s', [describeQuery table_name], Outcome.ret (jsonOfRows rows) false)
  | (s', ExecResult.fail m) =>
    (s', [describeQuery table_name],
      Outcome.ret (str "Error describing table: " ++ m) true)

/-- `SqliteDatabase._synthesizeMemo` (server.ts lines 116-135): the memo text
derived from the current insights ledger. -/
def synthesizeMemo (insights : List Str) : Str :=
  if insights.length = 0 then
    str "No business insights have been discovered yet."
  else
    let bullets := joinSep (str "\n") (insights.map fun i => str "- " ++ i)
    let memo := str "📊 Business Intelligence Memo 📊\n\n"
      ++ str "Key Insights Discovered:\n\n" ++ bullets
    if insights.length > 1 then
      memo ++ str "\nSummary:\n"
        ++ (str "Analysis has revealed " ++ natToStr insights.length
          ++ str " key business insights that suggest opportunities for strategic optimization and growth.")
    else
      memo

/-- The notification emitted after an append (server.ts lines 349-354). -/
structure Notification where
  method : Str
  resource : Str
deriving DecidableEq

/-- The fixed notification sent by `append_insight`: note the resource
identifier is `memo://insight`. -/
def appendInsightNotification : Notification :=
  { method := str "notifications/resources/updated", resource := str "memo://insight" }

/-- The URI under which the memo resource is registered and served
(server.ts line 173). -/
def memoResourceUri : Str := str "memo://insights"

/-- The `append_insight` tool handler (server.ts lines 343-363): push the
insight onto the ledger, recompute the memo (the result is discarded — the
call is side-effect free in this model), emit the notification, and return the
fixed acknowledgment.  No validation and no failure path. -/
def append_insight (insights : List Str) (insight : Str) :
    List Str × Notification × Outcome :=
  (insights ++ [insight], appendInsightNotification,
    Outcome.ret (str "Insight added to memo") false)

/-- One invocation of a named operation, with its argument (the six tools
registered on the server). -/
inductive Op where
  | readOp (q : Str)
  | writeOp (q : Str)
  | createOp (q : Str)
  | listOp
  | describeOp (t : Str)
  | appendOp (i : Str)
deriving DecidableEq

/-- The state the running server threads through operations: the store state
and the `SqliteDatabase.insights` ledger. -/
structure ServerState (σ : Type) where
  store : σ
  insights : List Str

/-- Dispatch one operation against the server state, as the registered tool
handlers do: only `append_insight` touches the ledger, only the other five
touch the store. -/
def stepOp (exec : Exec σ) (st : ServerState σ) : Op → ServerState σ × Outcome
  | Op.readOp q =>
    ({ store := (read_query exec st.store q).1, insights := st.insights },
      (read_query exec st.store q).2.2)
  | Op.writeOp q =>
    ({ store := (write_query exec st.store q).1, insights := st.insights },
      (write_query exec st.store q).2.2)
  | Op.createOp q =>
    ({ store := (create_table exec st.store q).1, insights := st.insights },
      (create_table exec st.store q).2.2)
  | Op.listOp =>
    ({ store := (list_tables exec st.store).1, insights := st.insights },
      (list_tables exec st.store).2.2)
  | Op.describeOp t =>
    ({ store := (describe_table exec st.store t).1, insights := st.insights },
      (describe_table exec st.store t).2.2)
  | Op.appendOp i =>
    ({ store := st.store, insights := (append_insight st.insights i).1 },
      (append_insight st.insights i).2.2)

/-- Run a sequence of operations from a server state. -/
def runOps (exec : Exec σ) (st : ServerState σ) : List Op → ServerState σ
  | [] => st
  | op :: ops => runOps exec (stepOp exec st op).1 ops

/-- The number of `append_insight` calls in an operation sequence (each such
call succeeds). -/
def countAppends : List Op → Nat
  | [] => 0
  | Op.appendOp _ :: ops => countAppends ops + 1
  | Op.readOp _ :: ops => countAppends ops
  | Op.writeOp _ :: ops => countAppends ops
  | Op.createOp _ :: ops => countAppends ops
  | Op.listOp :: ops => countAppends ops
  | Op.describeOp _ :: ops => countAppends ops

lemma runOps_insights_extend (σ : Type) (exec : Exec σ) :
    ∀ (ops : List Op) (st : ServerState σ),
      ∃ tail, (runOps exec st ops).insights = st.insights ++ tail ∧
        (runOps exec st ops).insights.length = st.insights.length + countAppends ops := by
  intro ops
  induction ops with
  | nil => intro st; exact ⟨[], by simp [runOps, countAppends]⟩
  | cons op ops ih =>
    intro st
    obtain ⟨tail, h1, h2⟩ := ih (stepOp exec st op).1
    cases op with
    | appendOp i =>
      refine ⟨i :: tail, ?_, ?_⟩
      · rw [runOps, h1]
        simp [stepOp, append_insight]
      · rw [runOps, h2]
        simp [stepOp, append_insight, countAppends]
        omega
    | readOp q =>
      refine ⟨tail, ?_, ?_⟩
      · rw [runOps, h1]; rfl
      · rw [runOps, h2]; rfl
    | writeOp q =>
      refine ⟨tail, ?_, ?_⟩
      · rw [runOps, h1]; rfl
      · rw [runOps, h2]; rfl
    | createOp q =>
      refine ⟨tail, ?_, ?_⟩
      · rw [runOps, h1]; rfl
      · rw [runOps, h2]; rfl
    | listOp =>
      refine ⟨tail, ?_, ?_⟩
      · rw [runOps, h1]; rfl
      · rw [runOps, h2]; rfl
    | describeOp t =>
      refine ⟨tail, ?_, ?_⟩
      · rw [runOps, h1]; rfl
      · rw [runOps, h2]; rfl

/-- Claim C7: the ledger is append-only and monotonic.  A single
`append_insight` extends the ledger by exactly its insight; each of the other
five operations leaves the ledger untouched; across any operation sequence the
initial ledger stays an unchanged initial segment and the length grows by
exactly the number of append calls (in particular it never decreases). -/
theorem c7_ledger_append_only (σ : Type) (exec : Exec σ) (st : ServerState σ) :
    (∀ i, (stepOp exec st (Op.appendOp i)).1.insights = st.insights ++ [i]) ∧
    (∀ q, (stepOp exec st (Op.readOp q)).1.insights = st.insights) ∧
    (∀ q, (stepOp exec st (Op.writeOp q)).1.insights = st.insights) ∧
    (∀ q, (stepOp exec st (Op.createOp q)).1.insights = st.insights) ∧
    ((stepOp exec st Op.listOp).1.insights = st.insights) ∧
    (∀ t, (stepOp exec st (Op.describeOp t)).1.insights = st.insights) ∧
    (∀ ops, ∃ tail, (runOps exec st ops).insights = st.insights ++ tail ∧
      (runOps exec st ops).insights.length = st.insights.length + countAppends ops) :=
  ⟨fun _ => rfl, fun _ => rfl, fun _ => rfl, fun _ => rfl, rfl, fun _ => rfl,
    fun ops => runOps_insights_extend σ exec ops st⟩

lemma splitOnChar_sep_cons (c : Char) (ys : Str) :
    splitOnChar c (c :: ys) = [] :: splitOnChar c ys := by
  simp [splitOnChar]

lemma splitOnChar_no_sep (c : Char) (s : Str) (h : c ∉ s) : splitOnChar c s = [s] := by
  induction s with
  | nil => rfl
  | cons d ds ih =>
    simp only [List.mem_cons, not_or] at h
    obtain ⟨h1, h2⟩ := h
    have hd : ¬ d = c := fun hh => h1 hh.symm
    simp only [splitOnChar, if_neg hd]
    rw [ih h2]

lemma splitOnChar_append_sep (c : Char) (xs ys : Str) (h : c ∉ xs) :
    splitOnChar c (xs ++ c :: ys) = xs :: splitOnChar c ys := by
  induction xs with
  | nil => simp [splitOnChar]
  | cons d ds ih =>
    simp only [List.mem_cons, not_or] at h
    obtain ⟨h1, h2⟩ := h
    have hd : ¬ d = c := fun hh => h1 hh.symm
    show splitOnChar c (d :: (ds ++ c :: ys)) = (d :: ds) :: splitOnChar c ys
    simp only [splitOnChar, if_neg hd]
    rw [ih h2]

lemma memo_single_decomp (a : Str) :
    synthesizeMemo [a] =
      str "📊 Business Intelligence Memo 📊" ++ '\n' :: '\n' ::
        (str "Key Insights Discovered:" ++ '\n' :: '\n' :: (str "- " ++ a)) := by
  have h1 : str "📊 Business Intelligence Memo 📊\n\n" ++ str "Key Insights Discovered:\n\n"
      = str "📊 Business Intelligence Memo 📊" ++ '\n' :: '\n' ::
        (str "Key Insights Discovered:" ++ '\n' :: '\n' :: []) := by decide
  calc synthesizeMemo [a]
      = (str "📊 Business Intelligence Memo 📊\n\n" ++ str "Key Insights Discovered:\n\n")
          ++ (str "- " ++ a) := by
        simp [synthesizeMemo, joinSep, List.append_assoc]
    _ = _ := by rw [h1]; simp [List.append_assoc]

lemma memo_pair_decomp (a b : Str) :
    synthesizeMemo [a, b] =
      str "📊 Business Intelligence Memo 📊" ++ '\n' :: '\n' ::
        (str "Key Insights Discovered:" ++ '\n' :: '\n' ::
          ((str "- " ++ a) ++ '\n' ::
            ((str "- " ++ b) ++ '\n' ::
              (str "Summary:" ++ '\n' ::
                str "Analysis has revealed 2 key business insights that suggest opportunities for strategic optimization and growth.")))) := by
  have h1 : str "📊 Business Intelligence Memo 📊\n\n" ++ str "Key Insights Discovered:\n\n"
      = str "📊 Business Intelligence Memo 📊" ++ '\n' :: '\n' ::
        (str "Key Insights Discovered:" ++ '\n' :: '\n' :: []) := by decide
  have h2 : (str "\n" : Str) = ['\n'] := by decide
  have h3 : str "\nSummary:\n"
      ++ (str "Analysis has revealed " ++ natToStr 2 ++ str " key business insights that suggest opportunities for strategic optimization and growth.")
      = '\n' :: (str "Summary:" ++ '\n' ::
          str "Analysis has revealed 2 key business insights that suggest opportunities for strategic optimization and growth.") := by
    decide
  calc synthesizeMemo [a, b]
      = (str "📊 Business Intelligence Memo 📊\n\n" ++ str "Key Insights Discovered:\n\n")
          ++ ((str "- " ++ a) ++ str "\n" ++ (str "- " ++ b))
          ++ (str "\nSummary:\n"
            ++ (str "Analysis has revealed " ++ natToStr 2 ++ str " key business insights that suggest opportunities for strategic optimization and growth.")) := by
        simp [synthesizeMemo, joinSep, List.append_assoc]
    _ = _ := by
        rw [h1, h2, h3]
        simp [List.append_assoc]

lemma no_newline_bullet (a : Str) (h : '\n' ∉ a) : '\n' ∉ str "- " ++ a := by
  intro hc
  rcases List.mem_append.mp hc with h1 | h2
  · exact absurd h1 (by decide)
  · exact h h2

lemma bullet_head (a : Str) : (str "- " ++ a).head? = some '-' := rfl

lemma splitLines_memo_single (a : Str) (h : '\n' ∉ a) :
    splitLines (synthesizeMemo [a]) =
      [str "📊 Business Intelligence Memo 📊", [], str "Key Insights Discovered:", [],
        str "- " ++ a] := by
  rw [splitLines, memo_single_decomp,
    splitOnChar_append_sep _ _ _ (by decide), splitOnChar_sep_cons,
    splitOnChar_append_sep _ _ _ (by decide), splitOnChar_sep_cons,
    splitOnChar_no_sep _ _ (no_newline_bullet a h)]

lemma splitLines_memo_pair (a b : Str) (ha : '\n' ∉ a) (hb : '\n' ∉ b) :
    splitLines (synthesizeMemo [a, b]) =
      [str "📊 Business Intelligence Memo 📊", [], str "Key Insights Discovered:", [],
        str "- " ++ a, str "- " ++ b, str "Summary:",
        str "Analysis has revealed 2 key business insights that suggest opportunities for strategic optimization and growth."] := by
  rw [splitLines, memo_pair_decomp,
    splitOnChar_append_sep _ _ _ (by decide), splitOnChar_sep_cons,
    splitOnChar_append_sep _ _ _ (by decide), splitOnChar_sep_cons,
    splitOnChar_append_sep _ _ _ (no_newline_bullet a ha),
    splitOnChar_append_sep _ _ _ (no_newline_bullet b hb),
    splitOnChar_append_sep _ _ _ (by decide),
    splitOnChar_no_sep _ _ (by decide)]

lemma bullet_ne_header (a : Str) :
    str "- " ++ a ≠ str "📊 Business Intelligence Memo 📊" := by
  intro he
  have hh := congrArg List.head? he
  rw [bullet_head] at hh
  rw [show (str "📊 Business Intelligence Memo 📊").head? = some '📊' from rfl] at hh
  exact absurd (Option.some.inj hh) (by decide)

lemma bullet_ne_key (a : Str) : str "- " ++ a ≠ str "Key Insights Discovered:" := by
  intro he
  have hh := congrArg List.head? he
  rw [bullet_head] at hh
  rw [show (str "Key Insights Discovered:").head? = some 'K' from rfl] at hh
  exact absurd (Option.some.inj hh) (by decide)

lemma bullet_ne_nil (a : Str) : str "- " ++ a ≠ ([] : Str) := by
  intro he
  have hh := congrArg List.head? he
  rw [bullet_head] at hh
  exact Option.noConfusion hh

lemma summary_ne_bullet (a : Str) : str "Summary:" ≠ str "- " ++ a := by
  intro he
  have hh := congrArg List.head? (he.symm)
  rw [bullet_head] at hh
  rw [show (str "Summary:").head? = some 'S' from rfl] at hh
  exact absurd (Option.some.inj hh) (by decide)

/-- Claim C6: memo synthesis is a pure function of the ledger.  The empty
ledger yields exactly the sentinel text; a one-element ledger `[a]` yields a
memo with exactly one line of the form `- a` and no summary section; a
two-element ledger `[a, b]` yields the two bulleted lines in insertion order
followed by a summary section stating the count 2.  (Insight texts are taken
newline-free, as a multi-line insight has no single bulleted line.) -/
theorem c6_memo_synthesis :
    synthesizeMemo [] = str "No business insights have been discovered yet." ∧
    (∀ a : Str, '\n' ∉ a →
      (splitLines (synthesizeMemo [a])).count (str "- " ++ a) = 1 ∧
      str "Summary:" ∉ splitLines (synthesizeMemo [a])) ∧
    (∀ a b : Str, '\n' ∉ a → '\n' ∉ b →
      splitLines (synthesizeMemo [a, b]) =
        [str "📊 Business Intelligence Memo 📊", [], str "Key Insights Discovered:", [],
          str "- " ++ a, str "- " ++ b, str "Summary:",
          str "Analysis has revealed 2 key business insights that suggest opportunities for strategic optimization and growth."]) := by
  refine ⟨rfl, ?_, ?_⟩
  · intro a h
    rw [splitLines_memo_single a h]
    constructor
    · simp [List.count_cons, beq_iff_eq, bullet_ne_header a, bullet_ne_key a,
        bullet_ne_nil a]
    · simp [List.mem_cons, summary_ne_bullet a]
      refine ⟨by decide, by decide, by decide⟩
  · intro a b ha hb
    exact splitLines_memo_pair a b ha hb

/-- Witness for C6 at the concrete insights of end-to-end scenario 4. -/
theorem c6_memo_synthesis_witness :
    (splitLines (synthesizeMemo [str "Sales grew 20%"])).count
      (str "- " ++ str "Sales grew 20%") = 1 ∧
    str "Summary:" ∉ splitLines (synthesizeMemo [str "Sales grew 20%"]) ∧
    splitLines (synthesizeMemo [str "Sales grew 20%", str "Churn dropped"]) =
      [str "📊 Business Intelligence Memo 📊", [], str "Key Insights Discovered:", [],
        str "- " ++ str "Sales grew 20%", str "- " ++ str "Churn dropped", str "Summary:",
        str "Analysis has revealed 2 key business insights that suggest opportunities for strategic optimization and growth."] :=
  ⟨(c6_memo_synthesis.2.1 (str "Sales grew 20%") (by decide)).1,
    (c6_memo_synthesis.2.1 (str "Sales grew 20%") (by decide)).2,
    c6_memo_synthesis.2.2 (str "Sales grew 20%") (str "Churn dropped")
      (by decide) (by decide)⟩

/-- One observable event of the connection lifecycle inside
`SqliteDatabase._executeQuery`. -/
inductive DbEvent where
  | connOpened (id : Nat)
  | connClosed (id : Nat)
  | queryRun (q : Str)
deriving DecidableEq

/-- The connection-handle world `_executeQuery` acts on: which connection
handles are currently open, a counter for fresh handles, and the event
history. -/
structure World where
  openConns : List Nat
  nextId : Nat
  events : List DbEvent
deriving DecidableEq

/-- `open(...)` (server.ts lines 139-142): obtain a fresh connection handle,
or fault when the store cannot be opened. -/
def dbOpen (openOk : Bool) (w : World) : World × Except Str Nat :=
  if openOk then
    ({ openConns := w.nextId :: w.openConns, nextId := w.nextId + 1,
       events := w.events ++ [DbEvent.connOpened w.nextId] }, Except.ok w.nextId)
  else
    (w, Except.error (str "SQLITE_CANTOPEN: unable to open database file"))

/-- `db.close()` (server.ts line 153): release a connection handle. -/
def dbClose (id : Nat) (w : World) : World :=
  { w with openConns := w.openConns.filter (fun c => c != id),
           events := w.events ++ [DbEvent.connClosed id] }

/-- `db.prepare / stmt.all / stmt.finalize` (server.ts lines 145-147), with
its outcome supplied by the `runRes` oracle. -/
def dbRun (runRes : Except Str (List Row)) (q : Str) (w : World) :
    World × Except Str (List Row) :=
  ({ w with events := w.events ++ [DbEvent.queryRun q] }, runRes)

/-- `SqliteDatabase._executeQuery` (server.ts lines 137-155): open a fresh
connection (a fault there propagates with nothing to close), run the
statement inside try/catch/finally — the catch logs and rethrows, so the run
outcome passes through unchanged, and the finally closes the connection
unconditionally before the call returns. -/
def executeQuery (openOk : Bool) (runRes : Except Str (List Row)) (q : Str) (w : World) :
    World × Except Str (List Row) :=
  match dbOpen openOk w with
  | (w1, Except.error m) => (w1, Except.error m)
  | (w1, Except.ok id) => (dbClose id (dbRun runRes q w1).1, (dbRun runRes q w1).2)

/-- Claim C8: every connection `_executeQuery` opens is closed before the call
returns, on the success path and on the fault path alike: the set of open
connections is unchanged by the call, the run outcome (success or fault)
passes through, and on a successful open the event history shows
open-run-close in order. -/
theorem c8_connection_never_leaks (openOk : Bool) (runRes : Except Str (List Row))
    (q : Str) (w : World) (hwf : ∀ c ∈ w.openConns, c < w.nextId) :
    (executeQuery openOk runRes q w).1.openConns = w.openConns ∧
    (executeQuery openOk runRes q w).2 =
      (if openOk then runRes
        else Except.error (str "SQLITE_CANTOPEN: unable to open database file")) ∧
    (openOk = true →
      (executeQuery openOk runRes q w).1.events =
        w.events ++ [DbEvent.connOpened w.nextId, DbEvent.queryRun q,
          DbEvent.connClosed w.nextId]) := by
  cases openOk with
  | false =>
    cases runRes <;> simp [executeQuery, dbOpen]
  | true =>
    have hfilter : w.openConns.filter (fun c => c != w.nextId) = w.openConns := by
      apply List.filter_eq_self.mpr
      intro c hc
      have := hwf c hc
      simp [bne_iff_ne]
      omega
    cases runRes <;>
      simp [executeQuery, dbOpen, dbRun, dbClose, hfilter]

/-- Witness for C8 on a fresh world, exercising the fault path of the run. -/
theorem c8_connection_never_leaks_witness :
    (executeQuery true (Except.error (str "SQLITE_ERROR: boom")) (str "SELECT 1")
      ⟨[], 0, []⟩).1.openConns = [] ∧
    (executeQuery true (Except.error (str "SQLITE_ERROR: boom")) (str "SELECT 1")
      ⟨[], 0, []⟩).1.events =
      [DbEvent.connOpened 0, DbEvent.queryRun (str "SELECT 1"), DbEvent.connClosed 0] :=
  ⟨(c8_connection_never_leaks true (Except.error (str "SQLITE_ERROR: boom")) (str "SELECT 1")
      ⟨[], 0, []⟩ (by simp)).1,
    by
      have := (c8_connection_never_leaks true (Except.error (str "SQLITE_ERROR: boom"))
        (str "SELECT 1") ⟨[], 0, []⟩ (by simp)).2.2 rfl
      simpa using this⟩

/-- An executor that succeeds on every statement with an empty result set. -/
def okExec : Exec Unit := fun s _ => (s, ExecResult.ok [])

/-- An executor on which every statement faults (store rejection or a
connection that cannot be opened, indistinguishable from the dispatcher). -/
def failExec : Exec Unit := fun s _ => (s, ExecResult.fail (str "SQLITE_ERROR: boom"))

/-- Claim C4: classification depends only on the prefix test of the trimmed,
uppercased statement.  `read_query` reaches the executor exactly when the
trimmed-uppercased statement starts with SELECT, `write_query` exactly when it
does not, and `create_table` exactly when it starts with CREATE TABLE; the
statement body is never examined. -/
theorem c4_classifier_prefix_gating (σ : Type) (exec : Exec σ) (s : σ) (q : Str) :
    ((read_query exec s q).2.1 ≠ [] ↔
      strStartsWith (jsToUpperCase (jsTrim q)) (str "SELECT") = true) ∧
    ((write_query exec s q).2.1 ≠ [] ↔
      strStartsWith (jsToUpperCase (jsTrim q)) (str "SELECT") = false) ∧
    ((create_table exec s q).2.1 ≠ [] ↔
      strStartsWith (jsToUpperCase (jsTrim q)) (str "CREATE TABLE") = true) := by
  refine ⟨?_, ?_, ?_⟩
  · cases h : strStartsWith (jsToUpperCase (jsTrim q)) (str "SELECT") with
    | false => simp [read_query, h]
    | true =>
      rcases he : exec s q with ⟨s', r⟩
      cases r <;> simp [read_query, h, he]
  · cases h : strStartsWith (jsToUpperCase (jsTrim q)) (str "SELECT") with
    | true => simp [write_query, h]
    | false =>
      rcases he : exec s q with ⟨s', r⟩
      cases r <;> simp [write_query, h, he]
  · cases h : strStartsWith (jsToUpperCase (jsTrim q)) (str "CREATE TABLE") with
    | false => simp [create_table, h]
    | true =>
      rcases he : exec s q with ⟨s', r⟩
      cases r with
      | fail m => simp [create_table, h, he]
      | ok rows =>
        rcases he2 : exec s' q with ⟨s'', r2⟩
        cases r2 <;> simp [create_table, h, he, he2]

/-- Claim C5: a statement rejected by the shape check yields an
`isError = true` envelope, no executor call, and an unchanged store state:
`read_query` for a statement not classified Read, `write_query` for a
statement classified Read. -/
theorem c5_rejection_executes_nothing (σ : Type) (exec : Exec σ) (s : σ) (q : Str) :
    (strStartsWith (jsToUpperCase (jsTrim q)) (str "SELECT") = false →
      read_query exec s q =
        (s, [], Outcome.ret (str "Only SELECT queries are allowed for read_query") true)) ∧
    (strStartsWith (jsToUpperCase (jsTrim q)) (str "SELECT") = true →
      write_query exec s q =
        (s, [], Outcome.ret (str "SELECT queries are not allowed for write_query") true)) := by
  constructor
  · intro h; simp [read_query, h]
  · intro h; simp [write_query, h]

/-- Witness for C5 at the statements of end-to-end scenario 3: `read_query`
rejects an INSERT and `write_query` rejects a SELECT, touching nothing. -/
theorem c5_rejection_executes_nothing_witness :
    strStartsWith (jsToUpperCase (jsTrim (str "INSERT INTO t VALUES (2,'b')"))) (str "SELECT")
      = false ∧
    read_query okExec () (str "INSERT INTO t VALUES (2,'b')") =
      ((), [], Outcome.ret (str "Only SELECT queries are allowed for read_query") true) ∧
    write_query okExec () (str "SELECT * FROM t") =
      ((), [], Outcome.ret (str "SELECT queries are not allowed for write_query") true) :=
  ⟨by decide,
    (c5_rejection_executes_nothing Unit okExec () (str "INSERT INTO t VALUES (2,'b')")).1
      (by decide),
    (c5_rejection_executes_nothing Unit okExec () (str "SELECT * FROM t")).2 (by decide)⟩

/-- Counterexample to C2 as stated: with an executor that faults, `read_query`
on a SELECT statement (and `write_query` on a DELETE) produces no
`isError = true` envelope — the fault escapes the handler, which has no
try/catch around the executor call. -/
theorem c2_counterexample_fault_not_enveloped :
    ((read_query failExec () (str "SELECT 1")).2.2).isErrorEnvelope = false ∧
    (read_query failExec () (str "SELECT 1")).2.2 = Outcome.thrown (str "SQLITE_ERROR: boom") ∧
    ((write_query failExec () (str "DELETE FROM t")).2.2).isErrorEnvelope = false ∧
    (write_query failExec () (str "DELETE FROM t")).2.2
      = Outcome.thrown (str "SQLITE_ERROR: boom") := by
  decide

/-- Claim C2 as amended: when the shape check passes and the executor fails,
`read_query` and `write_query` let the fault propagate out of the handler,
carrying the fault message; the dispatcher returns no envelope on this path. -/
theorem c2_amended_fault_propagates (σ : Type) (exec : Exec σ) (s s' : σ) (q m : Str) :
    (strStartsWith (jsToUpperCase (jsTrim q)) (str "SELECT") = true →
      exec s q = (s', ExecResult.fail m) →
      read_query exec s q = (s', [q], Outcome.thrown m)) ∧
    (strStartsWith (jsToUpperCase (jsTrim q)) (str "SELECT") = false →
      exec s q = (s', ExecResult.fail m) →
      write_query exec s q = (s', [q], Outcome.thrown m)) := by
  constructor
  · intro h he; simp [read_query, h, he]
  · intro h he; simp [write_query, h, he]

/-- Witness for the amended C2 at concrete faulting executions. -/
theorem c2_amended_fault_propagates_witness :
    read_query failExec () (str "SELECT 1") =
      ((), [str "SELECT 1"], Outcome.thrown (str "SQLITE_ERROR: boom")) ∧
    write_query failExec () (str "DELETE FROM t") =
      ((), [str "DELETE FROM t"], Outcome.thrown (str "SQLITE_ERROR: boom")) :=
  ⟨(c2_amended_fault_propagates Unit failExec () () (str "SELECT 1")
      (str "SQLITE_ERROR: boom")).1 (by decide) (by decide),
    (c2_amended_fault_propagates Unit failExec () () (str "DELETE FROM t")
      (str "SQLITE_ERROR: boom")).2 (by decide) (by decide)⟩

/-- Counterexample to C3 as stated: when the first, unconditional execution
faults, `create_table` invokes the executor only once (and the fault escapes),
so it does not invoke the executor exactly twice for every accepted
statement. -/
theorem c3_counterexample_single_invocation :
    strStartsWith (jsToUpperCase (jsTrim (str "CREATE TABLE t (x INTEGER)")))
      (str "CREATE TABLE") = true ∧
    (create_table failExec () (str "CREATE TABLE t (x INTEGER)")).2.1
      = [str "CREATE TABLE t (x INTEGER)"] ∧
    (create_table failExec () (str "CREATE TABLE t (x INTEGER)")).2.1.length ≠ 2 := by
  decide

/-- Claim C3 as amended: for an accepted statement, when the unconditional
first execution succeeds the executor runs exactly twice with that statement
and the second run's outcome determines the envelope; when the first execution
faults the executor runs only once and the fault propagates. -/
theorem c3_amended_double_execution (σ : Type) (exec : Exec σ) (s : σ) (q : Str) :
    strStartsWith (jsToUpperCase (jsTrim q)) (str "CREATE TABLE") = true →
    ((exec s q).2.isOk = true →
      (create_table exec s q).2.1 = [q, q] ∧
      (create_table exec s q).2.2 =
        (if (exec (exec s q).1 q).2.isOk then
          Outcome.ret (str "Table created successfully: " ++ q) false
        else
          Outcome.ret (str "Error creating table: " ++ (exec (exec s q).1 q).2.msg) true)) ∧
    ((exec s q).2.isOk = false →
      (create_table exec s q).2.1 = [q] ∧
      (create_table exec s q).2.2 = Outcome.thrown ((exec s q).2.msg)) := by
  intro h
  rcases he : exec s q with ⟨s1, r1⟩
  constructor
  · intro hok
    cases r1 with
    | fail m => simp [ExecResult.isOk] at hok
    | ok rows =>
      rcases he2 : exec s1 q with ⟨s2, r2⟩
      cases r2 <;> simp [create_table, h, he, he2, ExecResult.isOk, ExecResult.msg]
  · intro hbad
    cases r1 with
    | ok rows => simp [ExecResult.isOk] at hbad
    | fail m => simp [create_table, h, he, ExecResult.msg]

/-- Witness for the amended C3: a succeeding executor is invoked twice, a
faulting executor once with the fault propagating. -/
theorem c3_amended_double_execution_witness :
    (create_table okExec () (str "CREATE TABLE t (x INTEGER)")).2.1
      = [str "CREATE TABLE t (x INTEGER)", str "CREATE TABLE t (x INTEGER)"] ∧
    (create_table failExec () (str "CREATE TABLE t (x INTEGER)")).2.1
      = [str "CREATE TABLE t (x INTEGER)"] ∧
    (create_table failExec () (str "CREATE TABLE t (x INTEGER)")).2.2
      = Outcome.thrown (str "SQLITE_ERROR: boom") :=
  ⟨((c3_amended_double_execution Unit okExec () (str "CREATE TABLE t (x INTEGER)")
      (by decide)).1 (by decide)).1,
    ((c3_amended_double_execution Unit failExec () (str "CREATE TABLE t (x INTEGER)")
      (by decide)).2 (by decide)).1,
    ((c3_amended_double_execution Unit failExec () (str "CREATE TABLE t (x INTEGER)")
      (by decide)).2 (by decide)).2⟩

/-- Claim C9: `append_insight` performs no validation and never fails: for
every string, including the empty string, it appends the insight to the ledger
and returns the fixed acknowledgment with `isError = false`. -/
theorem c9_append_insight_unvalidated_total (insights : List Str) (s : Str) :
    append_insight insights s =
      (insights ++ [s], appendInsightNotification,
        Outcome.ret (str "Insight added to memo") false) ∧
    (append_insight insights (str "")).1 = insights ++ [str ""] ∧
    ((append_insight insights (str "")).2.2).isErrorEnvelope = false :=
  ⟨rfl, rfl, rfl⟩

/-- Claim C10: the notification emitted after every append carries the fixed
identifier `memo://insight`, which differs from `memo://insights`, the URI the
memo resource is registered and served under. -/
theorem c10_notification_uri_mismatch (insights : List Str) (i : Str) :
    (append_insight insights i).2.1.resource = str "memo://insight" ∧
    (append_insight insights i).2.1.resource ≠ memoResourceUri := by
  constructor
  · rfl
  · show appendInsightNotification.resource ≠ memoResourceUri
    decide

/-- Characters up to (excluding) the first occurrence of `c`. -/
def takeUntilChar (c : Char) : Str → Str
  | [] => []
  | d :: ds => if d = c then [] else d :: takeUntilChar c ds

/-- Characters after the first occurrence of `c` (empty when `c` is absent). -/
def dropThroughChar (c : Char) : Str → Str
  | [] => []
  | d :: ds => if d = c then ds else dropThroughChar c ds

/-- A table of the backing store: its name and its column names. -/
structure Table where
  name : Str
  columns : List Str
deriving DecidableEq

/-- The backing store's catalog: the tables it holds, in creation order. -/
abbrev Store := List Table

/-- Modelled from the spec: the store-side reading of a CREATE TABLE
statement.  The SQLite engine is external to the source tree; per §3 a
statement names a table and its columns, so the model extracts the table name
before the parenthesis and the first word of each comma-separated column
definition. -/
def parseCreate (s : Str) : Option (Str × List Str) :=
  let t := jsTrim s
  if strStartsWith (jsToUpperCase t) (str "CREATE TABLE") then
    let rest := t.drop 12
    let nm := jsTrim (takeUntilChar '(' rest)
    let body := takeUntilChar ')' (dropThroughChar '(' rest)
    let cols := (splitOnChar ',' body).map (fun cdef => takeUntilChar ' ' (jsTrim cdef))
    if nm = [] then none else some (nm, cols)
  else none

/-- Look up a table by name in the catalog. -/
def findTable (store : Store) (nm : Str) : Option Table :=
  store.find? (fun t => t.name == nm)

/-- Modelled from the spec: the store-side reading of the
`PRAGMA table_info(<name>)` introspection statement `describe_table` builds. -/
def parsePragma (s : Str) : Option Str :=
  if strStartsWith s (str "PRAGMA table_info(") then
    match (s.drop 18).reverse with
    | ')' :: revName => some revName.reverse
    | _ => none
  else none

/-- Modelled from the spec: the backing SQLite store (§3 Store, §4.2), which
is external to the source tree.  A CREATE TABLE statement adds the table to
the catalog, and faults when a table of that name already exists (SQLite's
documented behavior for CREATE TABLE without IF NOT EXISTS); the fixed
`list_tables` catalog query returns one `name` row per table; the
`describe_table` introspection returns one row per column of the named table
(the model keeps the `name` field of each `table_info` row, the field the
spec's scenario inspects); any other statement faults.  Result rows carry
text values only. -/
def sqliteExec : Exec Store := fun store q =>
  match parseCreate q with
  | some (nm, cols) =>
    match findTable store nm with
    | some _ =>
      (store, ExecResult.fail (str "SQLITE_ERROR: table " ++ nm ++ str " already exists"))
    | none => (store ++ [{ name := nm, columns := cols }], ExecResult.ok [])
  | none =>
    if q = listTablesQuery then
      (store, ExecResult.ok (store.map (fun t => [(str "name", t.name)])))
    else
      match parsePragma q with
      | some nm =>
        match findTable store nm with
        | some t => (store, ExecResult.ok (t.columns.map (fun c => [(str "name", c)])))
        | none => (store, ExecResult.ok [])
      | none => (store, ExecResult.fail (str "SQLITE_ERROR: unrecognized statement"))

/-- The CREATE TABLE statement of end-to-end scenario 1. -/
def scenarioCreate : Str := str "CREATE TABLE t (id INTEGER, name TEXT)"

/-- Claim C1, evaluated on the code: on a fresh store, `create_table` with
`CREATE TABLE t (id INTEGER, name TEXT)` returns an `isError = true` envelope
— the handler executes the statement twice and the second execution faults
because table `t` then already exists — contradicting the claimed
`isError = false`; the table is nevertheless created by the first execution,
so the claim's remaining parts hold: `list_tables` afterwards lists `t` and
`describe_table("t")` lists the columns `id` and `name`, both with
`isError = false`. -/
theorem c1_scenario_create_is_error :
    (create_table sqliteExec [] scenarioCreate).2.2 =
      Outcome.ret (str "Error creating table: SQLITE_ERROR: table t already exists") true ∧
    ((create_table sqliteExec [] scenarioCreate).2.2).isErrorEnvelope = true ∧
    (create_table sqliteExec [] scenarioCreate).1 =
      [{ name := str "t", columns := [str "id", str "name"] }] ∧
    (list_tables sqliteExec (create_table sqliteExec [] scenarioCreate).1).2.2 =
      Outcome.ret (jsonOfRows [[(str "name", str "t")]]) false ∧
    (describe_table sqliteExec (create_table sqliteExec [] scenarioCreate).1 (str "t")).2.2 =
      Outcome.ret (jsonOfRows [[(str "name", str "id")], [(str "name", str "name")]]) false := by
  decide

end McpSqlite
